import Mathlib

/-!
Shallow embedding of the go-graphql client library (package graphql,
src/client.go) in Lean 4, for checking its natural-language specification.

The embedding follows the source:
  - Go JSON values become the inductive `Jval`; a Go `JSON` map
    (map[string]interface ...) becomes an association list `Jmap`.
    A nil-able map or slice becomes an `Option`, so that nil and empty
    stay distinguishable where the source distinguishes them.
  - `Request` keeps the fields of the Go struct (OperationName, Query,
    Variables, Files); a `NamedReader` becomes `FilePart` (a name and
    byte content), since only the name and bytes are observable.
  - `Response` keeps Data and Errors. The unexported back-reference
    `req`, used only by the Error() formatter, carries no claim here and
    is omitted.
  - The I/O of an exchange is abstracted as an input: the result of
    httpClient.Do is `Except String (Except String Response)` - the
    outer layer is the transport (error string or a body), the inner
    layer the JSON decoding of the body into a Response.
  - mapstructure.Decode (a third-party reflective decoder the source
    calls in Guess) is modelled by per-shape decoders that follow the
    default behaviour of that library: each destination field is
    matched against the map keys by the Go FIELD NAME, first exactly,
    then case-insensitively (strings.EqualFold, modelled as an ASCII
    character fold, which agrees on ASCII names); a `mapstructure` tag would
    override the field name but the source declares none (the structs
    carry only `json` tags, which mapstructure does not read); a field
    with no matching key is left at its current value.
-/

/-- A JSON value: the shapes storable in a Go `JSON` map. Numbers are
modelled as `Int`, enough for every number the claims touch. -/
inductive Jval where
  | null
  | bool (b : Bool)
  | num (n : Int)
  | str (s : String)
  | arr (elems : List Jval)
  | obj (fields : List (String × Jval))
deriving Repr

/-- A Go `JSON` map (`map[string]interface`), as an association list. -/
abbrev Jmap := List (String × Jval)

/-- SourceLocation: a position in the query text (client.go). -/
structure SourceLocation where
  Line : Int
  Column : Int
deriving Repr, DecidableEq

/-- GraphQLError: one structured error of the reply envelope (client.go). -/
structure GraphQLError where
  Message : String
  Path : List String
  Locations : List SourceLocation
  Extensions : Jmap
deriving Repr

/-- A named binary attachment: the observable content of a Go
`NamedReader` (its name and the bytes it reads). -/
structure FilePart where
  Name : String
  Content : List Nat
deriving Repr, DecidableEq

/-- Request: the graphql request body (client.go). `Variables := none`
models a nil Go map, `Files := none`-like nil slices are folded into the
empty list (the source only ever tests `Files == nil || len(Files) == 0`,
which cannot tell them apart). -/
structure Request where
  OperationName : String
  Query : String
  Variables : Option Jmap
  Files : List FilePart
deriving Repr

/-- NewRequest (client.go): a plain request has no files. -/
def NewRequest (query operationName : String) (vars : Option Jmap) : Request :=
  Request.mk operationName query vars []

/-- NewUploadRequest (client.go): an upload request has nil variables. -/
def NewUploadRequest (query operationName : String) (files : List FilePart) : Request :=
  Request.mk operationName query none files

/-- Response: the decoded reply envelope (client.go). `Data := none`
models a nil Data map, `Errors := none` a nil Errors slice. -/
structure Response where
  Data : Option Jmap
  Errors : Option (List GraphQLError)
deriving Repr

/-- HasError (client.go): false when Errors is nil or empty, true
otherwise. -/
def Response.HasError (r : Response) : Bool :=
  match r.Errors with
  | none => false
  | some l => !(l.length == 0)

/-- The observable content of the multipart form that
buildFormDataRequest produces, in the order the parts are written:
the `operations` field (the JSON-serialised, possibly rewritten,
Request), the `map` field (`mapField`: index key to list of dotted
variable paths, as the Go map is populated), and one binary part per
selected file, as `(index key, file)` in writing order. -/
structure FormData where
  operations : Request
  mapField : List (String × List String)
  fileParts : List (String × FilePart)
deriving Repr

/-- buildFormDataRequest (client.go): fails when Files is nil or
empty; in single mode keeps only the first file, rewrites Variables to
a single null `file` placeholder and maps key "0" to
`variables.file`; in multi mode keeps all files, rewrites Variables to
`files`, a list of one null per file, and maps key `i` to
`variables.files.i`; finally writes one binary part per selected file
keyed by its index. -/
def buildFormDataRequest (req : Request) (single : Bool) : Except String FormData :=
  if req.Files.isEmpty then
    Except.error "build form data request error: has no files"
  else
    let files := if single then req.Files.take 1 else req.Files
    let m : List (String × List String) :=
      if single then
        [("0", ["variables.file"])]
      else
        (List.range req.Files.length).map
          (fun i => (toString i, ["variables.files." ++ toString i]))
    let vars : Jmap :=
      if single then
        [("file", Jval.null)]
      else
        [("files", Jval.arr (List.replicate req.Files.length Jval.null))]
    let rewritten := Request.mk req.OperationName req.Query (some vars) req.Files
    Except.ok
      (FormData.mk rewritten m
        (files.enum.map (fun p => (toString p.fst, p.snd))))

/-- The caller-supplied context, as the exchange observes it: whether
its Done channel is closed at the moment the transport result comes
back, and the message of ctx.Err() at that moment. -/
structure Ctx where
  done : Bool
  errMsg : String
deriving Repr, DecidableEq

/-- The failure modes of an exchange (the non-nil errors the Go
functions return): a build error, the context error preferred on a
cancelled context, a transport error, a body-decoding error, or the
envelope itself when it carries errors (protocol failure). -/
inductive DoError where
  | build (msg : String)
  | ctxCancelled (msg : String)
  | transport (msg : String)
  | decode (msg : String)
  | protocol (r : Response)
deriving Repr

/-- do (client.go): the part of an exchange after the http request is
built. `transportResult` abstracts httpClient.Do plus body decoding:
the outer layer is the transport (its error string, or a body), the
inner layer the decoding of that body into a Response. On a transport
error the context is consulted first and its error wrapped when the
context is already done; a decoded envelope with HasError is returned
as the error, never as the value. -/
def doExchange (ctx : Ctx) (transportResult : Except String (Except String Response)) :
    Except DoError Response :=
  match transportResult with
  | Except.error e =>
    if ctx.done then Except.error (DoError.ctxCancelled ctx.errMsg)
    else Except.error (DoError.transport e)
  | Except.ok decoded =>
    match decoded with
    | Except.error e => Except.error (DoError.decode e)
    | Except.ok resp =>
      if resp.HasError then Except.error (DoError.protocol resp)
      else Except.ok resp

/-- Do (client.go): builds a plain JSON request and runs the exchange.
Serialising `Jval` never fails, so the build step always succeeds and
Do is the exchange on the plain request. -/
def Do (ctx : Ctx) (query operationName : String) (vars : Option Jmap)
    (transportResult : Except String (Except String Response)) : Except DoError Response :=
  let _req := NewRequest query operationName vars
  doExchange ctx transportResult

/-- SingleUpload (client.go): builds the multipart request in single
mode from exactly one file, then runs the exchange. -/
def SingleUpload (ctx : Ctx) (query operationName : String) (file : FilePart)
    (transportResult : Except String (Except String Response)) : Except DoError Response :=
  match buildFormDataRequest (NewUploadRequest query operationName [file]) true with
  | Except.error e => Except.error (DoError.build e)
  | Except.ok _ => doExchange ctx transportResult

/-- MultiUpload (client.go): builds the multipart request in multi
mode from the given files, then runs the exchange. -/
def MultiUpload (ctx : Ctx) (query operationName : String) (files : List FilePart)
    (transportResult : Except String (Except String Response)) : Except DoError Response :=
  match buildFormDataRequest (NewUploadRequest query operationName files) false with
  | Except.error e => Except.error (DoError.build e)
  | Except.ok _ => doExchange ctx transportResult

/-- The errors Guess returns (client.go): a "has no data" error for a
nil Data map, the envelope itself when HasError holds, a "has no data
about name" error for a missing key, and a wrapped decoder error. -/
inductive GuessError where
  | noData
  | protocol (r : Response)
  | missingName (name : String)
  | decodeFailed (msg : String)
deriving Repr

/-- Guess (client.go). `dec` stands for mapstructure.Decode at the
destination type: it receives the destination value as it is before
the call and the JSON value found under `name`. The result pairs the
destination after the call with the returned error: error paths leave
the destination untouched (on the two paths the claims inspect, nil
data and missing key, the Go code returns before Decode is called). -/
def Response.Guess {A : Type} (r : Response) (dec : A → Jval → Except String A)
    (name : String) (dest : A) : A × Option GuessError :=
  match r.Data with
  | none => (dest, some GuessError.noData)
  | some d =>
    if r.HasError then (dest, some (GuessError.protocol r))
    else
      match d.lookup name with
      | none => (dest, some (GuessError.missingName name))
      | some j =>
        match dec dest j with
        | Except.error e => (dest, some (GuessError.decodeFailed e))
        | Except.ok v => (v, none)

/-- Case-insensitive equality of two characters: equal outright, or
equal after lowering an upper-case letter (ASCII folding, which agrees
with strings.EqualFold on the ASCII identifiers involved here). -/
def charFoldEq (a b : Char) : Bool :=
  a == b
    || (a.isUpper && a.toNat + 32 == b.toNat)
    || (b.isUpper && b.toNat + 32 == a.toNat)

/-- Case-insensitive equality of two character lists, position by
position. -/
def listFoldEq : List Char → List Char → Bool
  | [], [] => true
  | a :: as, b :: bs => charFoldEq a b && listFoldEq as bs
  | _, _ => false

/-- strings.EqualFold, the case-insensitive string comparison
mapstructure falls back to. -/
def equalFold (a b : String) : Bool :=
  listFoldEq a.toList b.toList

/-- How mapstructure's default decoder finds the map entry for a
struct field: the Go field name is looked up exactly first, then by a
case-insensitive scan (strings.EqualFold). No `mapstructure` tags are
declared in the repository, so the field name is never overridden. -/
def lookupFieldKey (fieldName : String) (fields : Jmap) : Option Jval :=
  match fields.lookup fieldName with
  | some v => some v
  | none =>
    (fields.find? (fun p => equalFold p.fst fieldName)).map Prod.snd

/-- mapstructure's handling of one struct field of map-decoded data:
a missing key leaves the field at its current value, a present key is
decoded by the per-type decoder. -/
def decodeFieldKey {B : Type} (cur : B) (fieldName : String) (fields : Jmap)
    (decVal : Jval → Except String B) : Except String B :=
  match lookupFieldKey fieldName fields with
  | none => Except.ok cur
  | some j => decVal j

/-- mapstructure decoding into a Go string field. -/
def decodeString (j : Jval) : Except String String :=
  match j with
  | Jval.str s => Except.ok s
  | _ => Except.error "expected type string"

/-- mapstructure decoding into a Go int field (our numbers are Int). -/
def decodeInt (j : Jval) : Except String Int :=
  match j with
  | Jval.num n => Except.ok n
  | _ => Except.error "expected type int"

/-- The `person` struct of the repository's test file: Go fields
`Name string` and `Age int`, declared with json (not mapstructure)
tags "name" and "age". -/
structure Person where
  Name : String
  Age : Int
deriving Repr, DecidableEq

/-- The zero value of `person` in Go. -/
def personZero : Person := Person.mk "" 0

/-- mapstructure.Decode into a `person` destination: the source data
must be a map; each field is matched by its Go field name (exact, then
case-insensitive) and left unchanged when no key matches. -/
def decodePerson (init : Person) (j : Jval) : Except String Person :=
  match j with
  | Jval.obj fields => do
    let n ← decodeFieldKey init.Name "Name" fields decodeString
    let a ← decodeFieldKey init.Age "Age" fields decodeInt
    Except.ok (Person.mk n a)
  | _ => Except.error "expected a map"

/-- mapstructure.Decode into a `[]*person` destination: the source
data must be a list; each element is decoded into a fresh zero-valued
person, in order. -/
def decodePersonList (_init : List Person) (j : Jval) : Except String (List Person) :=
  match j with
  | Jval.arr elems => elems.mapM (decodePerson personZero)
  | _ => Except.error "expected a list"

/-- Modelled as a comparison point for the spec sentence "Field
matching between JSON keys and destination fields is name-based (a
declared per-field string tag, not a positional or case-insensitive
default)": the decoder that would match each destination field through
the per-field string tag the repository declares on `person` (the json
tags "name" and "age"), as an explicit key-to-field mapping (exact key
lookup; a key that is not the tag does not match). mapstructure, the
decoder the source actually calls, does not read these tags. -/
def decodePersonByTag (init : Person) (j : Jval) : Except String Person :=
  match j with
  | Jval.obj fields => do
    let n ← (match fields.lookup "name" with
      | none => Except.ok init.Name
      | some v => decodeString v)
    let a ← (match fields.lookup "age" with
      | none => Except.ok init.Age
      | some v => decodeInt v)
    Except.ok (Person.mk n a)
  | _ => Except.error "expected a map"

/-- A sample structured error, for concrete envelopes. -/
def sampleErr : GraphQLError := GraphQLError.mk "boom" [] [] []

/-- A concrete envelope with non-null data and a non-empty errors
list. -/
def respErr : Response := Response.mk (some [("k", Jval.num 1)]) (some [sampleErr])

/-- A concrete envelope whose data is present but has no "person"
entry, and whose errors list is non-empty. -/
def respCE : Response := Response.mk (some [("x", Jval.null)]) (some [sampleErr])

/-- The first Guess test envelope of the repository's test file:
data.person is a single name/age map. -/
def respPerson : Response :=
  Response.mk
    (some [("person", Jval.obj [("name", Jval.str "Jack"), ("age", Jval.num 26)])])
    none

/-- The second Guess test envelope of the repository's test file:
data.person is a two-element list of name/age maps. -/
def respPersonList : Response :=
  Response.mk
    (some [("person", Jval.arr
      [Jval.obj [("name", Jval.str "Jack"), ("age", Jval.num 26)],
       Jval.obj [("name", Jval.str "Rose"), ("age", Jval.num 25)]])])
    none

/-- A person map whose keys are upper-cased variants of the declared
json tags: the input separating tag-driven matching from
case-insensitive field-name matching. -/
def jCaps : Jval := Jval.obj [("NAME", Jval.str "Jack"), ("AGE", Jval.num 26)]

/-- Two concrete attachments for multi-upload instances. -/
def fileA : FilePart := FilePart.mk "a.txt" [97]

/-- See fileA. -/
def fileB : FilePart := FilePart.mk "b.txt" [98]

/-- C1: for every exchange whose body decodes into an envelope with a
non-empty errors list (HasError), the call returns an error carrying
the envelope itself, and never the envelope as its success value, even
when the envelope also carries non-null data; this holds for the
shared exchange step and through Do, SingleUpload and MultiUpload
(MultiUpload reaches the exchange whenever its build step accepts the
files). -/
theorem do_protocol_error_short_circuits (ctx : Ctx) (q op : String) (v : Option Jmap)
    (f : FilePart) (files : List FilePart) (resp : Response)
    (h : resp.HasError = true) :
    doExchange ctx (Except.ok (Except.ok resp)) = Except.error (DoError.protocol resp)
    ∧ Do ctx q op v (Except.ok (Except.ok resp)) = Except.error (DoError.protocol resp)
    ∧ SingleUpload ctx q op f (Except.ok (Except.ok resp)) = Except.error (DoError.protocol resp)
    ∧ (files ≠ [] → MultiUpload ctx q op files (Except.ok (Except.ok resp))
        = Except.error (DoError.protocol resp)) := by
  refine ⟨?_, ?_, ?_, ?_⟩
  · simp [doExchange, h]
  · simp [Do, doExchange, h]
  · simp [SingleUpload, NewUploadRequest, buildFormDataRequest, doExchange, h]
  · intro hne
    match files, hne with
    | a :: l, _ =>
      simp [MultiUpload, NewUploadRequest, buildFormDataRequest, doExchange, h]

/-- Witness for C1: at a concrete envelope with non-null data and one
error, the exchange and Do both fail with the envelope as the error. -/
theorem do_protocol_error_short_circuits_witness :
    doExchange (Ctx.mk false "") (Except.ok (Except.ok respErr))
      = Except.error (DoError.protocol respErr)
    ∧ SingleUpload (Ctx.mk false "") "q" "op" fileA (Except.ok (Except.ok respErr))
      = Except.error (DoError.protocol respErr) :=
  ⟨(do_protocol_error_short_circuits (Ctx.mk false "") "q" "op" none fileA [fileA] respErr rfl).1,
   (do_protocol_error_short_circuits (Ctx.mk false "") "q" "op" none fileA [fileA] respErr rfl).2.2.1⟩

/-- C2: in single-upload mode with exactly one attachment, the map
field is exactly the single binding of key "0" to the one-element list
containing "variables.file", and the variables serialised into the
operations field are rewritten to exactly the single binding of "file"
to null; the one binary part is written under key "0". -/
theorem buildFormDataRequest_single_map_and_variables (op q : String) (v : Option Jmap)
    (f : FilePart) :
    buildFormDataRequest (Request.mk op q v [f]) true
      = Except.ok (FormData.mk (Request.mk op q (some [("file", Jval.null)]) [f])
          [("0", ["variables.file"])] [("0", f)]) := by
  simp [buildFormDataRequest]
  exact rfl

/-- C3: in multi-upload mode with N attachments (N greater than 1),
the map field has exactly N entries whose keys are "0" through "N-1"
in order, key i bound to the one-element list containing
"variables.files.i"; the rewritten variables are the single binding of
"files" to a list of exactly N nulls; and one binary part per
attachment is written under the same index key, in input order (the
parts project back to the attachment list and to the index keys). -/
theorem buildFormDataRequest_multi_map_and_variables (op q : String) (v : Option Jmap)
    (files : List FilePart) (h : 1 < files.length) :
    (buildFormDataRequest (Request.mk op q v files) false
      = Except.ok (FormData.mk
          (Request.mk op q
            (some [("files", Jval.arr (List.replicate files.length Jval.null))]) files)
          ((List.range files.length).map
            (fun i => (toString i, ["variables.files." ++ toString i])))
          (((List.range files.length).zip files).map
            (fun p => (toString p.fst, p.snd)))))
    ∧ ((List.range files.length).map
        (fun i => (toString i, ["variables.files." ++ toString i]))).length = files.length
    ∧ ((((List.range files.length).zip files).map
        (fun p => (toString p.fst, p.snd))).map Prod.snd = files)
    ∧ ((((List.range files.length).zip files).map
        (fun p => (toString p.fst, p.snd))).map Prod.fst
      = (List.range files.length).map (fun i => toString i)) := by
  refine ⟨?_, by simp, ?_, ?_⟩
  · match files, h with
    | a :: l, _ =>
      simp [buildFormDataRequest, List.enum_eq_zip_range]
  · rw [List.map_map]
    rw [show (Prod.snd ∘ fun p : Nat × FilePart => (toString p.fst, p.snd)) = Prod.snd from rfl]
    rw [List.map_snd_zip]
    simp
  · rw [List.map_map]
    rw [show (Prod.fst ∘ fun p : Nat × FilePart => (toString p.fst, p.snd))
        = (fun i => toString i) ∘ Prod.fst from rfl]
    rw [← List.map_map, List.map_fst_zip]
    simp

/-- Witness for C3: two concrete attachments give the two-entry map,
the two-null placeholder list and the two binary parts, in order. -/
theorem buildFormDataRequest_multi_map_and_variables_witness :
    buildFormDataRequest (Request.mk "op" "q" none [fileA, fileB]) false
      = Except.ok (FormData.mk
          (Request.mk "op" "q" (some [("files", Jval.arr [Jval.null, Jval.null])])
            [fileA, fileB])
          [("0", ["variables.files.0"]), ("1", ["variables.files.1"])]
          [("0", fileA), ("1", fileB)]) :=
  ((buildFormDataRequest_multi_map_and_variables "op" "q" none [fileA, fileB]
    (by decide)).1).trans (by rfl)

/-- C4 counterexample: at a concrete map whose keys are "NAME" and
"AGE", the decoder the source calls (mapstructure's default,
case-insensitive field-name matching) succeeds with the values, while
the decoder prescribed by the claim (matching through the declared
per-field string tag, an explicit key-to-field mapping) leaves both
fields at their zero values: field matching in Guess is not performed
via the declared per-field string tag. -/
theorem guess_matching_not_by_declared_tag_cex :
    decodePerson personZero jCaps = Except.ok (Person.mk "Jack" 26)
    ∧ decodePersonByTag personZero jCaps = Except.ok (Person.mk "" 0)
    ∧ decodePerson personZero jCaps ≠ decodePersonByTag personZero jCaps := by
  refine ⟨rfl, rfl, ?_⟩
  have h1 : decodePerson personZero jCaps = Except.ok (Person.mk "Jack" 26) := rfl
  have h2 : decodePersonByTag personZero jCaps = Except.ok (Person.mk "" 0) := rfl
  rw [h1, h2]
  intro hcontra
  injection hcontra with h3
  have h4 := congrArg Person.Name h3
  exact absurd h4 (by decide)

/-- C4 as amended: matching of JSON keys to destination fields is
name-based but not tag-driven and not positional: the Go field name is
matched against the keys case-insensitively (here through upper-cased
keys, and under either key order), the declared json tags playing no
role; the behaviour carries through Guess. -/
theorem guess_matching_case_insensitive_field_name (s : String) (n : Int) :
    decodePerson personZero (Jval.obj [("NAME", Jval.str s), ("AGE", Jval.num n)])
      = Except.ok (Person.mk s n)
    ∧ decodePerson personZero (Jval.obj [("AGE", Jval.num n), ("NAME", Jval.str s)])
      = Except.ok (Person.mk s n)
    ∧ decodePerson personZero (Jval.obj [("name", Jval.str s), ("age", Jval.num n)])
      = Except.ok (Person.mk s n)
    ∧ (Response.mk (some [("person", Jval.obj [("NAME", Jval.str s), ("AGE", Jval.num n)])])
        none).Guess decodePerson "person" personZero = (Person.mk s n, none) := by
  exact ⟨rfl, rfl, rfl, rfl⟩

/-- C5 counterexample: a concrete envelope whose data is present but
lacks the requested name, while its errors list is non-empty: Guess
fails with the envelope itself (the protocol error), not with the
"missing field" error the claim requires for every such envelope. -/
theorem guess_missing_key_with_errors_cex :
    (respCE.Guess decodePerson "person" personZero).snd = some (GuessError.protocol respCE)
    ∧ (respCE.Guess decodePerson "person" personZero).snd
      ≠ some (GuessError.missingName "person") := by
  refine ⟨rfl, ?_⟩
  have h1 : (respCE.Guess decodePerson "person" personZero).snd
      = some (GuessError.protocol respCE) := rfl
  rw [h1]
  intro hcontra
  injection hcontra with h2
  cases h2

/-- C5 as amended: Guess on an envelope with nil data fails with the
"no data" error; Guess on an envelope whose errors list is empty and
whose data is present but lacks the requested name fails with the
"missing field" error; in both cases the destination is returned
unchanged. (When errors is non-empty and data present, Guess instead
returns the envelope itself as the error, as the counterexample
shows.) -/
theorem guess_no_data_and_missing_field_errors {A : Type} (r : Response)
    (dec : A → Jval → Except String A) (nm : String) (dest : A) :
    (r.Data = none → r.Guess dec nm dest = (dest, some GuessError.noData))
    ∧ (∀ d, r.Data = some d → r.HasError = false → d.lookup nm = none →
        r.Guess dec nm dest = (dest, some (GuessError.missingName nm))) := by
  constructor
  · intro hd; simp [Response.Guess, hd]
  · intro d hd he hl; simp [Response.Guess, hd, he, hl]

/-- Witness for C5 as amended: a nil-data envelope yields the no-data
error and an error-free envelope without the requested key yields the
missing-field error, the destination unchanged in both. -/
theorem guess_no_data_and_missing_field_errors_witness :
    (Response.mk none none).Guess decodePerson "person" personZero
      = (personZero, some GuessError.noData)
    ∧ (Response.mk (some [("x", Jval.null)]) none).Guess decodePerson "person" personZero
      = (personZero, some (GuessError.missingName "person")) :=
  ⟨(guess_no_data_and_missing_field_errors (Response.mk none none)
      decodePerson "person" personZero).1 rfl,
   (guess_no_data_and_missing_field_errors (Response.mk (some [("x", Jval.null)]) none)
      decodePerson "person" personZero).2 [("x", Jval.null)] rfl rfl rfl⟩

/-- C6: HasError is true exactly when the errors list is present and
non-empty; it depends only on the Errors field, so it is unchanged
under any replacement of the Data field (and, being a plain function
of the envelope, it has no side effects). -/
theorem hasError_iff_errors_present_nonempty (r : Response) :
    (r.HasError = true ↔ ∃ l, r.Errors = some l ∧ l ≠ [])
    ∧ (∀ d1 d2 : Option Jmap,
        (Response.mk d1 r.Errors).HasError = (Response.mk d2 r.Errors).HasError) := by
  constructor
  · cases h : r.Errors with
    | none => simp [Response.HasError, h]
    | some l => cases l <;> simp [Response.HasError, h]
  · intro d1 d2; rfl

/-- C7: Guess converts the extracted value into the destination shape:
the repository's two test envelopes decode to the record with name
"Jack" and age 26, and to the two-element sequence Jack-then-Rose in
exactly the input order. -/
theorem guess_round_trip_record_and_list :
    respPerson.Guess decodePerson "person" personZero = (Person.mk "Jack" 26, none)
    ∧ respPersonList.Guess decodePersonList "person" []
      = ([Person.mk "Jack" 26, Person.mk "Rose" 25], none) :=
  ⟨rfl, rfl⟩

/-- C8: multipart encoding of an operation with an empty (or nil)
attachments list fails with the "has no files" encoding error, in both
single and multi mode, before any body part is produced; MultiUpload
called with no files propagates it as its build error without touching
the transport. (SingleUpload always packs its one mandatory file
argument into a one-element list, so it cannot reach this branch.) -/
theorem buildFormDataRequest_empty_files_fails (single : Bool) (op q : String)
    (v : Option Jmap) (ctx : Ctx) (tr : Except String (Except String Response)) :
    buildFormDataRequest (Request.mk op q v []) single
      = Except.error "build form data request error: has no files"
    ∧ MultiUpload ctx q op [] tr
      = Except.error (DoError.build "build form data request error: has no files") := by
  constructor
  · rfl
  · rfl

/-- C9: when the transport reports a failure while the supplied
context is already done, the exchange returns the wrapped context
error, not the wrapped transport error; likewise through Do. -/
theorem do_prefers_context_error (ctx : Ctx) (e q op : String) (v : Option Jmap)
    (h : ctx.done = true) :
    doExchange ctx (Except.error e) = Except.error (DoError.ctxCancelled ctx.errMsg)
    ∧ Do ctx q op v (Except.error e) = Except.error (DoError.ctxCancelled ctx.errMsg)
    ∧ doExchange ctx (Except.error e) ≠ Except.error (DoError.transport e) := by
  refine ⟨by simp [doExchange, h], by simp [Do, doExchange, h], ?_⟩
  simp [doExchange, h]

/-- Witness for C9: a concrete already-cancelled context turns a
concrete transport failure into the context error. -/
theorem do_prefers_context_error_witness :
    doExchange (Ctx.mk true "context canceled") (Except.error "connection refused")
      = Except.error (DoError.ctxCancelled "context canceled") :=
  (do_prefers_context_error (Ctx.mk true "context canceled")
    "connection refused" "q" "op" none rfl).1

/-- C10: the order of the checks Guess performs: with data present and
a non-empty errors list it returns the envelope itself as the error
(no extraction is attempted and the destination is unchanged), and
with nil data it returns the no-data error even when errors is also
non-empty, the nil-data check coming before the HasError check. -/
theorem guess_short_circuit_order {A : Type} (r : Response)
    (dec : A → Jval → Except String A) (nm : String) (dest : A) :
    (∀ d, r.Data = some d → r.HasError = true →
      r.Guess dec nm dest = (dest, some (GuessError.protocol r)))
    ∧ (r.Data = none → r.Guess dec nm dest = (dest, some GuessError.noData)) := by
  constructor
  · intro d hd he; simp [Response.Guess, hd, he]
  · intro hd; simp [Response.Guess, hd]

/-- Witness for C10: with present data and one error Guess returns the
envelope as the error; with nil data and the same non-empty errors
list it returns the no-data error. -/
theorem guess_short_circuit_order_witness :
    respErr.Guess decodePerson "k" personZero = (personZero, some (GuessError.protocol respErr))
    ∧ (Response.mk none (some [sampleErr])).Guess decodePerson "k" personZero
      = (personZero, some GuessError.noData) :=
  ⟨(guess_short_circuit_order respErr decodePerson "k" personZero).1
      [("k", Jval.num 1)] rfl rfl,
   (guess_short_circuit_order (Response.mk none (some [sampleErr]))
      decodePerson "k" personZero).2 rfl⟩
